import Mathlib

/-!
Shallow embedding of the superdevs-quiz Solana HTTP service core:
base58/base64 codecs, instruction builders (system transfer, SPL
initialize-mint / mint-to / transfer) and the per-endpoint handlers from
src/create_token.rs, src/mint_token.rs, src/send.rs and src/sign.rs.
Bytes are Nat (values < 256 where it matters), strings are List Char,
and fallible paths return Option / Except with the exact error messages
of the source.  The external Ed25519 primitive (signing, keypair
consistency, signature verification) enters the handlers as explicit
function parameters, so the control flow around it is embedded exactly
while the primitive itself stays abstract.
-/

/-- The base58 alphabet used by the bs58 crate (Bitcoin alphabet). -/
def base58Alphabet : List Char :=
  ("123456789ABCDEFGHJKLMNPQRSTUVWXYZabcdefghijkmnopqrstuvwxyz").toList

/-- Index lookup in a character table, carrying the running index. -/
def lookupIdx (c : Char) : List Char → Nat → Option Nat
  | [], _ => none
  | a :: r, i => if a = c then some i else lookupIdx c r (i + 1)

/-- Value of one base58 digit character, `none` when outside the alphabet. -/
def charVal (c : Char) : Option Nat :=
  lookupIdx c base58Alphabet 0

/-- Character of one base58 digit value. -/
def alphChar (d : Nat) : Char :=
  base58Alphabet.getD d '1'

/-- Values of a list of base58 characters; `none` when any is invalid. -/
def charVals : List Char → Option (List Nat)
  | [] => some []
  | c :: r =>
    match charVal c, charVals r with
    | some v, some vs => some (v :: vs)
    | _, _ => none

/-- Big-endian positional value of a digit list in base `b`
(the accumulator loop of the bs58 crate). -/
def foldVal (b : Nat) (l : List Nat) : Nat :=
  l.foldl (fun a d => a * b + d) 0

/-- Little-endian digits of `n` in base `b`, fuel-structured so that the
kernel can evaluate it. -/
def digitsLEF (b : Nat) : Nat → Nat → List Nat
  | 0, _ => []
  | fuel + 1, n => if n = 0 then [] else n % b :: digitsLEF b fuel (n / b)

/-- Big-endian digits of `n` in base `b` (minimal representation). -/
def natToBE (b n : Nat) : List Nat :=
  (digitsLEF b n n).reverse

/-- `bs58::decode(s).into_vec()`: fails on any character outside the
alphabet; otherwise one zero byte per leading one-character, followed by
the big-endian bytes of the positional value of the digits. -/
def b58decode (s : List Char) : Option (List Nat) :=
  match charVals s with
  | none => none
  | some vals =>
    some (List.replicate (s.takeWhile (fun c => c = '1')).length 0 ++
      natToBE 256 (foldVal 58 vals))

/-- `bs58::encode(bytes).into_string()`: one leading one-character per
leading zero byte, followed by the base58 digits of the value. -/
def b58encode (bytes : List Nat) : List Char :=
  List.replicate (bytes.takeWhile (fun b => b = 0)).length '1' ++
    (natToBE 58 (foldVal 256 bytes)).map alphChar

/-- The standard base64 alphabet. -/
def base64Alphabet : List Char :=
  ("ABCDEFGHIJKLMNOPQRSTUVWXYZabcdefghijklmnopqrstuvwxyz0123456789+/").toList

/-- Value of one base64 character. -/
def b64charVal (c : Char) : Option Nat :=
  lookupIdx c base64Alphabet 0

/-- Character of one base64 digit value. -/
def b64char (d : Nat) : Char :=
  base64Alphabet.getD d 'A'

/-- `base64::engine::general_purpose::STANDARD.encode`: 3-byte groups to
4 characters, with `=` padding. -/
def b64encode : List Nat → List Char
  | [] => []
  | [a] => [b64char (a / 4), b64char (a % 4 * 16), '=', '=']
  | [a, b] => [b64char (a / 4), b64char (a % 4 * 16 + b / 16), b64char (b % 16 * 4), '=']
  | a :: b :: c :: r =>
    b64char (a / 4) :: b64char (a % 4 * 16 + b / 16) ::
      b64char (b % 16 * 4 + c / 64) :: b64char (c % 64) :: b64encode r

/-- `base64::engine::general_purpose::STANDARD.decode`: requires length a
multiple of 4, canonical `=` padding only in the final group, canonical
(zero) trailing bits, and alphabet characters elsewhere. -/
def b64decode : List Char → Option (List Nat)
  | [] => some []
  | c1 :: c2 :: c3 :: c4 :: rest =>
    if c4 = '=' ∧ rest = [] then
      match b64charVal c1, b64charVal c2 with
      | some v1, some v2 =>
        if c3 = '=' then
          if v2 % 16 = 0 then some [v1 * 4 + v2 / 16] else none
        else
          match b64charVal c3 with
          | some v3 =>
            if v3 % 4 = 0 then
              some [v1 * 4 + v2 / 16, v2 % 16 * 16 + v3 / 4]
            else none
          | none => none
      | _, _ => none
    else
      match b64charVal c1, b64charVal c2, b64charVal c3, b64charVal c4 with
      | some v1, some v2, some v3, some v4 =>
        match b64decode rest with
        | some bs =>
          some ((v1 * 4 + v2 / 16) :: (v2 % 16 * 16 + v3 / 4) :: (v3 % 4 * 64 + v4) :: bs)
        | none => none
      | _, _, _, _ => none
  | _ => none

/-- One account reference inside an instruction
(`solana_sdk::instruction::AccountMeta`). -/
structure AccountMeta where
  pubkey : List Nat
  is_signer : Bool
  is_writable : Bool
deriving DecidableEq

/-- A ledger instruction (`solana_sdk::instruction::Instruction`). -/
structure Instruction where
  program_id : List Nat
  accounts : List AccountMeta
  data : List Nat
deriving DecidableEq

/-- Little-endian 8-byte encoding of a u64 amount. -/
def le8 (n : Nat) : List Nat :=
  [n % 256, n / 256 % 256, n / 65536 % 256, n / 16777216 % 256,
   n / 4294967296 % 256, n / 1099511627776 % 256,
   n / 281474976710656 % 256, n / 72057594037927936 % 256]

/-- `solana_sdk::system_program::ID` (base58 `11111111111111111111111111111111`). -/
def systemProgramId : List Nat :=
  List.replicate 32 0

/-- `spl_token::ID` (base58 `TokenkegQfeZyiNwAJbNbGKPFXCWuBvf9Ss623VQ5DA`). -/
def splTokenId : List Nat :=
  (b58decode (("TokenkegQfeZyiNwAJbNbGKPFXCWuBvf9Ss623VQ5DA").toList)).getD []

/-- `solana_sdk::sysvar::rent::ID` (base58 `SysvarRent111111111111111111111111111111111`). -/
def rentSysvarId : List Nat :=
  (b58decode (("SysvarRent111111111111111111111111111111111").toList)).getD []

/-- `solana_sdk::system_instruction::transfer`: program id is the system
program; data is the bincode encoding of `SystemInstruction::Transfer`
(u32 variant tag 2, little-endian, then the u64 lamports). -/
def system_transfer (from_ to_ : List Nat) (lamports : Nat) : Instruction :=
  { program_id := systemProgramId
    accounts := [⟨from_, true, true⟩, ⟨to_, false, true⟩]
    data := [2, 0, 0, 0] ++ le8 lamports }

/-- `spl_token::instruction::initialize_mint`: checks the token program
id, then packs tag 0, decimals, the mint authority and the `COption`
encoding of the freeze authority. -/
def initialize_mint (tpid mint authority : List Nat) (freeze : Option (List Nat))
    (decimals : Nat) : Except Unit Instruction :=
  if tpid = splTokenId then
    Except.ok
      { program_id := tpid
        accounts := [⟨mint, false, true⟩, ⟨rentSysvarId, false, false⟩]
        data := 0 :: decimals :: authority ++
          (match freeze with
           | some f => 1 :: f
           | none => [0]) }
  else Except.error ()

/-- `spl_token::instruction::mint_to`: tag 7 plus the little-endian
amount; owner is a signer exactly when the multisig signer list is empty. -/
def mint_to (tpid mint account owner : List Nat) (signers : List (List Nat))
    (amount : Nat) : Except Unit Instruction :=
  if tpid = splTokenId then
    Except.ok
      { program_id := tpid
        accounts := [⟨mint, false, true⟩, ⟨account, false, true⟩,
          ⟨owner, signers.isEmpty, false⟩] ++ signers.map (fun s => ⟨s, true, false⟩)
        data := 7 :: le8 amount }
  else Except.error ()

/-- `spl_token::instruction::transfer`: tag 3 plus the little-endian
amount; owner is a signer exactly when the multisig signer list is empty. -/
def spl_transfer (tpid source destination owner : List Nat)
    (signers : List (List Nat)) (amount : Nat) : Except Unit Instruction :=
  if tpid = splTokenId then
    Except.ok
      { program_id := tpid
        accounts := [⟨source, false, true⟩, ⟨destination, false, true⟩,
          ⟨owner, signers.isEmpty, false⟩] ++ signers.map (fun s => ⟨s, true, false⟩)
        data := 3 :: le8 amount }
  else Except.error ()

/-- `Pubkey::try_from(&[u8])`: succeeds exactly on 32 bytes. -/
def pubkeyTryFrom (l : List Nat) : Option (List Nat) :=
  if l.length = 32 then some l else none

/-- `Pubkey::from_str`: rejects strings longer than 44 characters, then
base58-decodes (encoding failure), then requires 32 bytes (size failure);
`create_token` maps every failure to one message per field. -/
def parsePubkey (s : List Char) : Option (List Nat) :=
  if s.length > 44 then none
  else
    match b58decode s with
    | none => none
    | some bytes => if bytes.length = 32 then some bytes else none

/-- `str::trim().is_empty()` on the request fields: true when every
character is whitespace (in particular on the empty string). -/
def isBlank (s : List Char) : Bool :=
  s.all (fun c => c.isWhitespace)

/-- One account entry of a success response, with the pubkey re-encoded
in base58. -/
structure RespAccount where
  pubkey : List Char
  is_signer : Bool
  is_writable : Bool
deriving DecidableEq

/-- The success payload of the instruction-building endpoints. -/
structure BuildResp where
  program_id : List Char
  accounts : List RespAccount
  instruction_data : List Char
deriving DecidableEq

/-- Re-encode the accounts of an instruction for the response. -/
def encodeAccounts (l : List AccountMeta) : List RespAccount :=
  l.map (fun m => ⟨b58encode m.pubkey, m.is_signer, m.is_writable⟩)

/-- Request body of `POST /token/create` (src/create_token.rs). -/
structure CreateTokenRequest where
  mint_authority : Option (List Char)
  mint : Option (List Char)
  decimals : Option Nat
deriving DecidableEq

/-- Request body of `POST /token/mint` (src/mint_token.rs). -/
structure MintTokenRequest where
  mint : Option (List Char)
  destination : Option (List Char)
  authority : Option (List Char)
  amount : Option Nat
deriving DecidableEq

/-- Request body of `POST /send/sol` (src/send.rs). -/
structure SendSolRequest where
  from_ : Option (List Char)
  to_ : Option (List Char)
  lamports : Option Nat
deriving DecidableEq

/-- Request body of `POST /send/token` (src/send.rs). -/
structure SendTokenRequest where
  destination : Option (List Char)
  mint : Option (List Char)
  owner : Option (List Char)
  amount : Option Nat
deriving DecidableEq

/-- Handler `create_token`: validates presence of `mint_authority`,
`mint` (both via `Pubkey::from_str`, one error message per field) and
`decimals`, then builds the SPL initialize-mint instruction with the
freeze authority set to the mint authority. -/
def createToken (req : CreateTokenRequest) : Except (List Char) BuildResp :=
  match req.mint_authority with
  | none => Except.error (("Missing required field: mint_authority").toList)
  | some authority_str =>
    match parsePubkey authority_str with
    | none => Except.error (("Invalid mint authority public key").toList)
    | some mint_authority =>
      match req.mint with
      | none => Except.error (("Missing required field: mint").toList)
      | some mint_str =>
        match parsePubkey mint_str with
        | none => Except.error (("Invalid mint public key").toList)
        | some mint =>
          match req.decimals with
          | none => Except.error (("Missing required field: decimals").toList)
          | some decimals =>
            match initialize_mint splTokenId mint mint_authority
                (some mint_authority) decimals with
            | Except.error _ =>
              Except.error (("Failed to create initialize mint instruction").toList)
            | Except.ok instruction =>
              Except.ok
                { program_id := b58encode splTokenId
                  accounts := encodeAccounts instruction.accounts
                  instruction_data := b64encode instruction.data }

/-- Handler `mint_token`: validates `mint`, `destination`, `authority`
(presence and non-blankness), rejects a missing or zero `amount`, then
base58-decodes the three addresses (distinct errors for bad encoding
and wrong length) and builds the SPL mint-to instruction. -/
def mintToken (req : MintTokenRequest) : Except (List Char) BuildResp :=
  match req.mint with
  | none => Except.error (("Missing required field: mint").toList)
  | some mint_str =>
    if isBlank mint_str then Except.error (("Mint address cannot be empty").toList)
    else
      match req.destination with
      | none => Except.error (("Missing required field: destination").toList)
      | some destination_str =>
        if isBlank destination_str then
          Except.error (("Destination address cannot be empty").toList)
        else
          match req.authority with
          | none => Except.error (("Missing required field: authority").toList)
          | some authority_str =>
            if isBlank authority_str then
              Except.error (("Authority address cannot be empty").toList)
            else
              match req.amount with
              | none => Except.error (("Missing required field: amount").toList)
              | some amount =>
                if amount = 0 then
                  Except.error (("Amount must be greater than 0").toList)
                else
                  match b58decode mint_str with
                  | none => Except.error (("Invalid mint public key format").toList)
                  | some mint_bytes =>
                    match pubkeyTryFrom mint_bytes with
                    | none => Except.error (("Invalid mint public key").toList)
                    | some mint =>
                      match b58decode destination_str with
                      | none =>
                        Except.error (("Invalid destination public key format").toList)
                      | some destination_bytes =>
                        match pubkeyTryFrom destination_bytes with
                        | none =>
                          Except.error (("Invalid destination public key").toList)
                        | some destination =>
                          match b58decode authority_str with
                          | none =>
                            Except.error (("Invalid authority public key format").toList)
                          | some authority_bytes =>
                            match pubkeyTryFrom authority_bytes with
                            | none =>
                              Except.error (("Invalid authority public key").toList)
                            | some authority =>
                              match mint_to splTokenId mint destination authority
                                  [] amount with
                              | Except.error _ =>
                                Except.error
                                  (("Failed to create mint-to instruction").toList)
                              | Except.ok instruction =>
                                Except.ok
                                  { program_id := b58encode splTokenId
                                    accounts := encodeAccounts instruction.accounts
                                    instruction_data := b64encode instruction.data }

/-- Handler `send_solana`: validates `from`, `to` (presence and
non-blankness), rejects a missing or zero `lamports`, base58-decodes the
two addresses (distinct errors for bad encoding and wrong length) and
builds the native system-transfer instruction. -/
def sendSolana (req : SendSolRequest) : Except (List Char) BuildResp :=
  match req.from_ with
  | none => Except.error (("Missing required field: from").toList)
  | some from_str =>
    if isBlank from_str then Except.error (("From address cannot be empty").toList)
    else
      match req.to_ with
      | none => Except.error (("Missing required field: to").toList)
      | some to_str =>
        if isBlank to_str then Except.error (("To address cannot be empty").toList)
        else
          match req.lamports with
          | none => Except.error (("Missing required field: lamports").toList)
          | some lamports =>
            if lamports = 0 then
              Except.error (("Amount must be greater than 0").toList)
            else
              match b58decode from_str with
              | none => Except.error (("Invalid from public key format").toList)
              | some from_bytes =>
                match pubkeyTryFrom from_bytes with
                | none => Except.error (("Invalid from public key").toList)
                | some from_ =>
                  match b58decode to_str with
                  | none => Except.error (("Invalid to public key format").toList)
                  | some to_bytes =>
                    match pubkeyTryFrom to_bytes with
                    | none => Except.error (("Invalid to public key").toList)
                    | some to_ =>
                      let instruction := system_transfer from_ to_ lamports
                      Except.ok
                        { program_id := b58encode systemProgramId
                          accounts := encodeAccounts instruction.accounts
                          instruction_data := b64encode instruction.data }

/-- Handler `send_token`: validates `destination`, `mint`, `owner`
(presence and non-blankness), rejects a missing or zero `amount`, then
base58-decodes `destination`, decodes the `mint` field into the
variable named `source`, decodes `owner`, and builds the SPL token
transfer with that `source` in the source position. -/
def sendToken (req : SendTokenRequest) : Except (List Char) BuildResp :=
  match req.destination with
  | none => Except.error (("Missing required field: destination").toList)
  | some destination_str =>
    if isBlank destination_str then
      Except.error (("Destination address cannot be empty").toList)
    else
      match req.mint with
      | none => Except.error (("Missing required field: mint").toList)
      | some mint_str =>
        if isBlank mint_str then
          Except.error (("Mint address cannot be empty").toList)
        else
          match req.owner with
          | none => Except.error (("Missing required field: owner").toList)
          | some owner_str =>
            if isBlank owner_str then
              Except.error (("Owner address cannot be empty").toList)
            else
              match req.amount with
              | none => Except.error (("Missing required field: amount").toList)
              | some amount =>
                if amount = 0 then
                  Except.error (("Amount must be greater than 0").toList)
                else
                  match b58decode destination_str with
                  | none =>
                    Except.error (("Invalid destination public key format").toList)
                  | some destination_bytes =>
                    match pubkeyTryFrom destination_bytes with
                    | none =>
                      Except.error (("Invalid destination public key").toList)
                    | some destination =>
                      match b58decode mint_str with
                      | none =>
                        Except.error (("Invalid source public key format").toList)
                      | some source_bytes =>
                        match pubkeyTryFrom source_bytes with
                        | none =>
                          Except.error (("Invalid source public key").toList)
                        | some source =>
                          match b58decode owner_str with
                          | none =>
                            Except.error (("Invalid owner public key format").toList)
                          | some owner_bytes =>
                            match pubkeyTryFrom owner_bytes with
                            | none =>
                              Except.error (("Invalid owner public key").toList)
                            | some owner =>
                              match spl_transfer splTokenId source destination
                                  owner [] amount with
                              | Except.error _ =>
                                Except.error
                                  (("Failed to create token transfer instruction").toList)
                              | Except.ok instruction =>
                                Except.ok
                                  { program_id := b58encode splTokenId
                                    accounts := encodeAccounts instruction.accounts
                                    instruction_data := b64encode instruction.data }

/-- Request body of `POST /message/sign` (src/sign.rs). -/
structure MessageSignRequest where
  text : Option (List Char)
  private_key : Option (List Char)
deriving DecidableEq

/-- Success payload of `POST /message/sign`. -/
structure SignResp where
  signed_message : List Char
  wallet_address : List Char
  original_text : List Char
deriving DecidableEq

/-- Handler `process_message_signing`: validates the text and private-key
fields, base58-decodes the key, requires exactly 64 bytes, constructs the
keypair (the Ed25519 consistency check of `Keypair::try_from` enters as
the parameter `keypairOk`), signs the raw UTF-8 text (the Ed25519 signing
primitive enters as the parameter `signFn`), and responds with the
base64 signature and the base58 public half (bytes 32..64) of the keypair. -/
def processMessageSigning (signFn : List Nat → List Char → List Nat)
    (keypairOk : List Nat → Bool) (req : MessageSignRequest) :
    Except (List Char) SignResp :=
  match req.text with
  | none => Except.error (("Text field is required").toList)
  | some text =>
    if isBlank text then Except.error (("Text content cannot be empty").toList)
    else
      match req.private_key with
      | none => Except.error (("Private key field is required").toList)
      | some key_str =>
        if isBlank key_str then Except.error (("Private key cannot be empty").toList)
        else
          match b58decode key_str with
          | none => Except.error (("Invalid private key encoding").toList)
          | some key_bytes =>
            if key_bytes.length ≠ 64 then
              Except.error (("Private key must be 64 bytes long").toList)
            else if keypairOk key_bytes then
              Except.ok
                { signed_message := b64encode (signFn key_bytes text)
                  wallet_address := b58encode (key_bytes.drop 32)
                  original_text := text }
            else
              Except.error (("Cannot create keypair from provided private key").toList)

/-- Request body of `POST /message/verify` (src/sign.rs). -/
structure VerifyRequest where
  text : Option (List Char)
  signed_data : Option (List Char)
  wallet_address : Option (List Char)
deriving DecidableEq

/-- Success payload of `POST /message/verify`. -/
structure VerifyResp where
  is_verified : Bool
  original_text : List Char
  wallet_address : List Char
deriving DecidableEq

/-- Handler `authenticate_message_signature`: validates the three fields,
base58-decodes the wallet address (encoding error, then 32-byte length
check), base64-decodes the signature (encoding error, then 64-byte length
check), and only then runs Ed25519 verification (the primitive enters as
the parameter `verifyFn`), whose boolean lands in `is_verified` of a
success response. -/
def authenticateMessageSignature
    (verifyFn : List Nat → List Nat → List Char → Bool) (req : VerifyRequest) :
    Except (List Char) VerifyResp :=
  match req.text with
  | none => Except.error (("Text field is mandatory").toList)
  | some text =>
    if isBlank text then Except.error (("Text content must not be empty").toList)
    else
      match req.signed_data with
      | none => Except.error (("Signature field is mandatory").toList)
      | some sig_str =>
        if isBlank sig_str then
          Except.error (("Signature data must not be empty").toList)
        else
          match req.wallet_address with
          | none => Except.error (("Wallet address field is mandatory").toList)
          | some addr_str =>
            if isBlank addr_str then
              Except.error (("Wallet address must not be empty").toList)
            else
              match b58decode addr_str with
              | none => Except.error (("Wallet address encoding is invalid").toList)
              | some addr_bytes =>
                match pubkeyTryFrom addr_bytes with
                | none => Except.error (("Cannot parse wallet address").toList)
                | some wallet_pubkey =>
                  match b64decode sig_str with
                  | none => Except.error (("Signature encoding is invalid").toList)
                  | some sig_bytes =>
                    if sig_bytes.length = 64 then
                      Except.ok
                        { is_verified := verifyFn sig_bytes wallet_pubkey text
                          original_text := text
                          wallet_address := addr_str }
                    else
                      Except.error (("Cannot parse signature data").toList)

/-! Helper lemmas about the character tables. -/

theorem lookupIdx_spec (c : Char) :
    ∀ (l : List Char) (i j : Nat), lookupIdx c l i = some j →
      i ≤ j ∧ j - i < l.length ∧ l.getD (j - i) '1' = c := by
  intro l
  induction l with
  | nil => intro i j h; simp [lookupIdx] at h
  | cons a r ih =>
    intro i j h
    by_cases hac : a = c
    · simp [lookupIdx, hac] at h
      subst h
      simp [hac]
    · simp [lookupIdx, hac] at h
      obtain ⟨h1, h2, h3⟩ := ih (i + 1) j h
      refine ⟨by omega, by simp; omega, ?_⟩
      have hji : j - i = (j - (i + 1)) + 1 := by omega
      rw [hji]
      simpa using h3

theorem charVal_spec {c : Char} {d : Nat} (h : charVal c = some d) :
    d < 58 ∧ alphChar d = c := by
  obtain ⟨_, h2, h3⟩ := lookupIdx_spec c base58Alphabet 0 d h
  have hlen : base58Alphabet.length = 58 := by decide
  constructor
  · omega
  · simpa [alphChar] using h3

theorem charVal_alphChar : ∀ d, d < 58 → charVal (alphChar d) = some d := by decide

theorem charVal_one : charVal '1' = some 0 := by decide

theorem alphChar_ne_one : ∀ d, d < 58 → d ≠ 0 → alphChar d ≠ '1' := by decide

theorem charVals_append {l1 l2 : List Char} {v1 v2 : List Nat}
    (h1 : charVals l1 = some v1) (h2 : charVals l2 = some v2) :
    charVals (l1 ++ l2) = some (v1 ++ v2) := by
  induction l1 generalizing v1 with
  | nil => simp [charVals] at h1; subst h1; simpa using h2
  | cons c r ih =>
    simp only [charVals] at h1
    cases hc : charVal c with
    | none => rw [hc] at h1; simp at h1
    | some v =>
      rw [hc] at h1
      cases hr : charVals r with
      | none => rw [hr] at h1; simp at h1
      | some vs =>
        rw [hr] at h1
        simp at h1
        subst h1
        simp [charVals, hc, ih hr]

theorem charVals_replicate_one (a : Nat) :
    charVals (List.replicate a '1') = some (List.replicate a 0) := by
  induction a with
  | zero => rfl
  | succ n ih => simp [List.replicate_succ, charVals, charVal_one, ih]

theorem charVals_map_alphChar {ds : List Nat} (h : ∀ d ∈ ds, d < 58) :
    charVals (ds.map alphChar) = some ds := by
  induction ds with
  | nil => rfl
  | cons d r ih =>
    have hd : d < 58 := h d (by simp)
    simp only [List.map_cons, charVals, charVal_alphChar d hd,
      ih (fun x hx => h x (by simp [hx]))]

theorem charVals_inv {s : List Char} {v : List Nat} (h : charVals s = some v) :
    s = v.map alphChar ∧ ∀ d ∈ v, d < 58 := by
  induction s generalizing v with
  | nil => simp [charVals] at h; subst h; simp
  | cons c r ih =>
    simp only [charVals] at h
    cases hc : charVal c with
    | none => rw [hc] at h; simp at h
    | some d =>
      rw [hc] at h
      cases hr : charVals r with
      | none => rw [hr] at h; simp at h
      | some vs =>
        rw [hr] at h
        simp at h
        subst h
        obtain ⟨hd, hc2⟩ := charVal_spec hc
        obtain ⟨ih1, ih2⟩ := ih hr
        refine ⟨by simp [hc2, ← ih1], ?_⟩
        intro x hx
        rcases List.mem_cons.mp hx with h | h
        · omega
        · exact ih2 x h

/-! Helper lemmas connecting the fuel-based digit functions to
`Nat.digits` and `Nat.ofDigits`. -/

theorem digitsLEF_eq_digits {b : Nat} (hb : 2 ≤ b) :
    ∀ fuel n, n ≤ fuel → digitsLEF b fuel n = Nat.digits b n := by
  intro fuel
  induction fuel with
  | zero =>
    intro n hn
    have : n = 0 := by omega
    subst this
    simp [digitsLEF]
  | succ f ih =>
    intro n hn
    by_cases h0 : n = 0
    · subst h0; simp [digitsLEF]
    · have hdiv : n / b < n := Nat.div_lt_self (by omega) (by omega)
      have hstep : digitsLEF b (f + 1) n =
          if n = 0 then [] else n % b :: digitsLEF b f (n / b) := rfl
      rw [hstep, if_neg h0, ih (n / b) (by omega),
        ← Nat.digits_def' (by omega : 1 < b) (by omega : 0 < n)]

theorem natToBE_eq_digits {b : Nat} (hb : 2 ≤ b) (n : Nat) :
    natToBE b n = (Nat.digits b n).reverse := by
  unfold natToBE
  rw [digitsLEF_eq_digits hb n n le_rfl]

theorem foldl_ofDigits (b : Nat) :
    ∀ (l : List Nat) (acc : Nat),
      l.foldl (fun a d => a * b + d) acc = Nat.ofDigits b l.reverse + acc * b ^ l.length := by
  intro l
  induction l with
  | nil => intro acc; simp [Nat.ofDigits_nil]
  | cons d t ih =>
    intro acc
    rw [List.foldl_cons, ih (acc * b + d)]
    simp only [List.reverse_cons, Nat.ofDigits_append, Nat.ofDigits_singleton,
      List.length_reverse, List.length_cons]
    ring

theorem foldVal_eq_ofDigits (b : Nat) (l : List Nat) :
    foldVal b l = Nat.ofDigits b l.reverse := by
  have := foldl_ofDigits b l 0
  simpa [foldVal] using this

theorem ofDigits_replicate_zero (b : Nat) : ∀ a, Nat.ofDigits b (List.replicate a 0) = 0 := by
  intro a
  induction a with
  | zero => simp [Nat.ofDigits_nil]
  | succ n ih => simp [List.replicate_succ, Nat.ofDigits_cons, ih]

/-! Helper lemmas about `takeWhile` / `dropWhile` decompositions. -/

theorem takeWhile_replicate_append {α : Type} [DecidableEq α] (x : α) (a : Nat)
    (t : List α) (h : ∀ hh : t ≠ [], t.head hh ≠ x) :
    (List.replicate a x ++ t).takeWhile (fun c => c = x) = List.replicate a x := by
  induction a with
  | zero =>
    simp only [List.replicate, List.nil_append]
    cases t with
    | nil => rfl
    | cons c r =>
      have : c ≠ x := h (by simp)
      simp [List.takeWhile, this]
  | succ n ih =>
    simp only [List.replicate_succ, List.cons_append, List.takeWhile]
    simp [ih]

theorem takeWhile_eq_replicate {α : Type} [DecidableEq α] (x : α) (l : List α) :
    l.takeWhile (fun c => c = x) =
      List.replicate (l.takeWhile (fun c => c = x)).length x := by
  apply List.eq_replicate_length.mpr
  intro b hb
  have := List.mem_takeWhile_imp hb
  simpa using this

theorem head_dropWhile_ne {α : Type} [DecidableEq α] (x : α) (l : List α)
    (h : l.dropWhile (fun c => c = x) ≠ []) :
    (l.dropWhile (fun c => c = x)).head h ≠ x := by
  induction l with
  | nil => simp at h
  | cons c r ih =>
    by_cases hc : c = x
    · have hdw : (c :: r).dropWhile (fun c => c = x) = r.dropWhile (fun c => c = x) := by
        simp [List.dropWhile, hc]
      have h' : r.dropWhile (fun c => c = x) ≠ [] := by rw [hdw] at h; exact h
      have := ih h'
      simp only [hdw]
      exact this
    · have hdw : (c :: r).dropWhile (fun c => c = x) = c :: r := by
        simp [List.dropWhile, hc]
      simp only [hdw]
      simpa using hc

theorem charVals_append_inv {l1 l2 : List Char} {v : List Nat}
    (h : charVals (l1 ++ l2) = some v) :
    ∃ v1 v2, charVals l1 = some v1 ∧ charVals l2 = some v2 ∧ v = v1 ++ v2 := by
  induction l1 generalizing v with
  | nil => exact ⟨[], v, rfl, h, by simp⟩
  | cons c r ih =>
    simp only [List.cons_append, charVals, List.append_eq] at h
    cases hc : charVal c with
    | none => rw [hc] at h; simp at h
    | some d =>
      rw [hc] at h
      cases hr : charVals (r ++ l2) with
      | none => rw [hr] at h; simp at h
      | some vs =>
        rw [hr] at h
        simp at h
        subst h
        obtain ⟨v1, v2, h1, h2, h3⟩ := ih hr
        exact ⟨d :: v1, v2, by simp [charVals, hc, h1], h2, by simp [h3]⟩

theorem getLast_append_singleton {α : Type} (l : List α) (x : α)
    (h : l ++ [x] ≠ []) : (l ++ [x]).getLast h = x := by
  rw [List.getLast_append' l [x] (by simp)]
  exact List.getLast_singleton x _

theorem ofDigits_append_singleton_pos {b : Nat} (hb : 0 < b) (l : List Nat)
    {x : Nat} (hx : x ≠ 0) : 0 < Nat.ofDigits b (l ++ [x]) := by
  rw [Nat.ofDigits_append, Nat.ofDigits_singleton]
  have h1 : 0 < b ^ l.length := pow_pos hb l.length
  have h2 : 0 < b ^ l.length * x := Nat.mul_pos h1 (Nat.pos_of_ne_zero hx)
  omega

theorem foldVal_zeros_append (b a : Nat) (l : List Nat) :
    foldVal b (List.replicate a 0 ++ l) = Nat.ofDigits b l.reverse := by
  rw [foldVal_eq_ofDigits, List.reverse_append, List.reverse_replicate,
    Nat.ofDigits_append, ofDigits_replicate_zero]
  simp

theorem natToBE_decomp {b N : Nat} (hb : 2 ≤ b) (hN : N ≠ 0) :
    ∃ g D, natToBE b N = g :: D ∧ g ≠ 0 ∧ (∀ d ∈ g :: D, d < b) ∧
      D.reverse ++ [g] = Nat.digits b N := by
  have hne : Nat.digits b N ≠ [] := Nat.digits_ne_nil_iff_ne_zero.mpr hN
  refine ⟨(Nat.digits b N).getLast hne, (Nat.digits b N).dropLast.reverse, ?_, ?_, ?_, ?_⟩
  · rw [natToBE_eq_digits hb]
    conv_lhs => rw [← List.dropLast_append_getLast hne]
    rw [List.reverse_append]
    simp
  · exact Nat.getLast_digit_ne_zero b hN
  · intro d hd
    rcases List.mem_cons.mp hd with h | h
    · subst h
      exact Nat.digits_lt_base (by omega) (List.getLast_mem hne)
    · have hdl : d ∈ (Nat.digits b N).dropLast := List.mem_reverse.mp h
      have hmem : d ∈ (Nat.digits b N).dropLast ++ [(Nat.digits b N).getLast hne] :=
        List.mem_append_left _ hdl
      rw [List.dropLast_append_getLast hne] at hmem
      exact Nat.digits_lt_base (by omega) hmem
  · rw [List.reverse_reverse]
    exact List.dropLast_append_getLast hne

theorem b58_decode_encode {k : List Nat} (hlt : ∀ x ∈ k, x < 256) :
    b58decode (b58encode k) = some k := by
  have hksplit : k.takeWhile (fun c => c = 0) ++ k.dropWhile (fun c => c = 0) = k :=
    List.takeWhile_append_dropWhile _ k
  have htake : k.takeWhile (fun c => c = 0) =
      List.replicate (k.takeWhile (fun c => c = 0)).length 0 :=
    takeWhile_eq_replicate 0 k
  have hrep : List.replicate (k.takeWhile (fun c => c = 0)).length 0 ++
      k.dropWhile (fun c => c = 0) = k := by rw [← htake]; exact hksplit
  have hN : foldVal 256 k = Nat.ofDigits 256 (k.dropWhile (fun c => c = 0)).reverse := by
    conv_lhs => rw [← hrep]
    exact foldVal_zeros_append _ _ _
  by_cases hte : k.dropWhile (fun c => c = 0) = []
  · -- all-zero byte string: the encoding is a run of one-characters
    obtain ⟨a, hk⟩ : ∃ a, k = List.replicate a 0 :=
      ⟨(k.takeWhile (fun c => c = 0)).length, by
        conv_lhs => rw [← hrep, hte, List.append_nil]⟩
    subst hk
    have htk : (List.replicate a (0 : Nat)).takeWhile (fun c => c = 0) =
        List.replicate a 0 := by
      simp
    have hf : foldVal 256 (List.replicate a (0 : Nat)) = 0 := by
      rw [foldVal_eq_ofDigits, List.reverse_replicate, ofDigits_replicate_zero]
    have henc : b58encode (List.replicate a 0) = List.replicate a '1' := by
      unfold b58encode
      rw [htk, hf, List.length_replicate]
      simp [natToBE, digitsLEF]
    rw [henc]
    have htw1 : (List.replicate a '1').takeWhile (fun c => c = '1') =
        List.replicate a '1' := by
      simp
    have hf58 : foldVal 58 (List.replicate a (0 : Nat)) = 0 := by
      rw [foldVal_eq_ofDigits, List.reverse_replicate, ofDigits_replicate_zero]
    unfold b58decode
    rw [charVals_replicate_one]
    simp [htw1, hf58, natToBE, digitsLEF]
  · -- nonzero value: decompose the digit string
    have hhead : ∀ hh : k.dropWhile (fun c => c = 0) ≠ [],
        (k.dropWhile (fun c => c = 0)).head hh ≠ 0 := head_dropWhile_ne 0 k
    have hcons : (k.dropWhile (fun c => c = 0)).head hte ::
        (k.dropWhile (fun c => c = 0)).tail = k.dropWhile (fun c => c = 0) :=
      List.head_cons_tail _ hte
    have hNpos : foldVal 256 k ≠ 0 := by
      rw [hN, ← hcons]
      simp only [List.reverse_cons]
      have := ofDigits_append_singleton_pos (b := 256) (by omega)
        (k.dropWhile (fun c => c = 0)).tail.reverse (hhead hte)
      omega
    obtain ⟨g, D, hgD, hg0, hglt, hrev⟩ :=
      natToBE_decomp (b := 58) (by omega) hNpos
    have hdig256 : Nat.digits 256 (foldVal 256 k) =
        (k.dropWhile (fun c => c = 0)).reverse := by
      rw [hN]
      apply Nat.digits_ofDigits 256 (by omega)
      · intro l hl
        have : l ∈ k.dropWhile (fun c => c = 0) := List.mem_reverse.mp hl
        have hmem : l ∈ k := by
          rw [← hrep]
          exact List.mem_append_right _ this
        exact hlt l hmem
      · intro hne2
        have h1 : (k.dropWhile (fun c => c = 0)).reverse.getLast? =
            (k.dropWhile (fun c => c = 0)).head? := List.getLast?_reverse _
        have h2 : (k.dropWhile (fun c => c = 0)).head? =
            some ((k.dropWhile (fun c => c = 0)).head hte) := List.head?_eq_head hte
        have h3 : (k.dropWhile (fun c => c = 0)).reverse.getLast? =
            some ((k.dropWhile (fun c => c = 0)).reverse.getLast hne2) :=
          List.getLast?_eq_getLast _ hne2
        have h4 : (k.dropWhile (fun c => c = 0)).reverse.getLast hne2 =
            (k.dropWhile (fun c => c = 0)).head hte := by
          rw [h1, h2] at h3
          exact (Option.some_injective _ h3).symm
        rw [h4]
        exact hhead hte
    have hBE256 : natToBE 256 (foldVal 256 k) = k.dropWhile (fun c => c = 0) := by
      rw [natToBE_eq_digits (by omega), hdig256, List.reverse_reverse]
    -- the encoded string
    have henc : b58encode k =
        List.replicate (k.takeWhile (fun c => c = 0)).length '1' ++
          (alphChar g :: D.map alphChar) := by
      unfold b58encode
      rw [hgD]
      simp
    rw [henc]
    unfold b58decode
    have hvals : charVals (List.replicate (k.takeWhile (fun c => c = 0)).length '1' ++
        (alphChar g :: D.map alphChar)) =
        some (List.replicate (k.takeWhile (fun c => c = 0)).length 0 ++ (g :: D)) := by
      apply charVals_append (charVals_replicate_one _)
      have : alphChar g :: D.map alphChar = (g :: D).map alphChar := by simp
      rw [this]
      exact charVals_map_alphChar hglt
    rw [hvals]
    have htw : (List.replicate (k.takeWhile (fun c => c = 0)).length '1' ++
        (alphChar g :: D.map alphChar)).takeWhile (fun c => c = '1') =
        List.replicate (k.takeWhile (fun c => c = 0)).length '1' := by
      apply takeWhile_replicate_append
      intro hh
      simp only [List.head_cons]
      exact alphChar_ne_one g (hglt g (by simp)) hg0
    rw [htw]
    simp only [List.length_replicate]
    have hfold : foldVal 58 (List.replicate (k.takeWhile (fun c => c = 0)).length 0 ++
        (g :: D)) = foldVal 256 k := by
      rw [foldVal_zeros_append]
      have : (g :: D).reverse = D.reverse ++ [g] := by simp
      rw [this, hrev, Nat.ofDigits_digits]
    rw [hfold, hBE256, hrep]

theorem getLast_reverse_eq_head {α : Type} (l : List α) (hl : l ≠ [])
    (h2 : l.reverse ≠ []) : l.reverse.getLast h2 = l.head hl := by
  have h1 := List.getLast?_reverse l
  rw [List.head?_eq_head hl, List.getLast?_eq_getLast _ h2] at h1
  exact Option.some_injective _ h1

theorem b58_encode_decode {s : List Char} {bytes : List Nat}
    (h : b58decode s = some bytes) : b58encode bytes = s := by
  unfold b58decode at h
  cases hcv : charVals s with
  | none => rw [hcv] at h; simp at h
  | some vals =>
    rw [hcv] at h
    simp only [Option.some.injEq] at h
    subst h
    have hssplit : s.takeWhile (fun c => c = '1') ++ s.dropWhile (fun c => c = '1') = s :=
      List.takeWhile_append_dropWhile _ s
    have htake1 : s.takeWhile (fun c => c = '1') =
        List.replicate (s.takeWhile (fun c => c = '1')).length '1' :=
      takeWhile_eq_replicate '1' s
    have hsrep : List.replicate (s.takeWhile (fun c => c = '1')).length '1' ++
        s.dropWhile (fun c => c = '1') = s := by rw [← htake1]; exact hssplit
    have hcv2 : charVals (List.replicate (s.takeWhile (fun c => c = '1')).length '1' ++
        s.dropWhile (fun c => c = '1')) = some vals := by rw [hsrep]; exact hcv
    obtain ⟨v1, v2, hv1, hv2, hveq⟩ := charVals_append_inv hcv2
    have hv1eq : v1 = List.replicate (s.takeWhile (fun c => c = '1')).length 0 := by
      have := charVals_replicate_one (s.takeWhile (fun c => c = '1')).length
      rw [hv1] at this
      exact Option.some_injective _ this
    subst hv1eq
    subst hveq
    have hNv : foldVal 58 (List.replicate (s.takeWhile (fun c => c = '1')).length 0 ++ v2) =
        Nat.ofDigits 58 v2.reverse := foldVal_zeros_append _ _ _
    obtain ⟨hrmap, hrlt⟩ := charVals_inv hv2
    by_cases hre : s.dropWhile (fun c => c = '1') = []
    · -- the string is a run of one-characters: all-zero bytes
      have hv2nil : v2 = [] := by
        rw [hre] at hv2
        exact (Option.some_injective _ hv2.symm)
      subst hv2nil
      rw [hNv]
      simp only [List.reverse_nil, Nat.ofDigits_nil, natToBE, digitsLEF,
        List.append_nil]
      unfold b58encode
      have htk : (List.replicate (s.takeWhile (fun c => c = '1')).length (0 : Nat)).takeWhile
          (fun c => c = 0) = List.replicate (s.takeWhile (fun c => c = '1')).length 0 := by
        simp
      rw [htk, List.length_replicate]
      have hf : foldVal 256
          (List.replicate (s.takeWhile (fun c => c = '1')).length (0 : Nat)) = 0 := by
        rw [foldVal_eq_ofDigits, List.reverse_replicate, ofDigits_replicate_zero]
      rw [hf]
      simp only [natToBE, digitsLEF, List.reverse_nil, List.map_nil, List.append_nil]
      rw [hre, List.append_nil] at hsrep
      exact hsrep
    · -- the digit part is nonempty and starts with a nonzero digit
      have hrhead : ∀ hh : s.dropWhile (fun c => c = '1') ≠ [],
          (s.dropWhile (fun c => c = '1')).head hh ≠ '1' := head_dropWhile_ne '1' s
      have hconsr : (s.dropWhile (fun c => c = '1')).head hre ::
          (s.dropWhile (fun c => c = '1')).tail = s.dropWhile (fun c => c = '1') :=
        List.head_cons_tail _ hre
      have hv2r : charVals ((s.dropWhile (fun c => c = '1')).head hre ::
          (s.dropWhile (fun c => c = '1')).tail) = some v2 := by rw [hconsr]; exact hv2
      simp only [charVals] at hv2r
      cases hch : charVal ((s.dropWhile (fun c => c = '1')).head hre) with
      | none => rw [hch] at hv2r; simp at hv2r
      | some vh =>
        rw [hch] at hv2r
        cases hct : charVals (s.dropWhile (fun c => c = '1')).tail with
        | none => rw [hct] at hv2r; simp at hv2r
        | some vt =>
          rw [hct] at hv2r
          simp only [Option.some.injEq] at hv2r
          have hvh0 : vh ≠ 0 := by
            intro h0
            subst h0
            obtain ⟨_, hac⟩ := charVal_spec hch
            exact hrhead hre hac.symm
          have hN0 : Nat.ofDigits 58 v2.reverse ≠ 0 := by
            rw [← hv2r]
            simp only [List.reverse_cons]
            have := ofDigits_append_singleton_pos (b := 58) (by omega)
              vt.reverse hvh0
            omega
          obtain ⟨g, D, hgD, hg0, hglt, hrevD⟩ :=
            natToBE_decomp (b := 256)
              (N := foldVal 58 (List.replicate
                (s.takeWhile (fun c => c = '1')).length 0 ++ v2))
              (by omega) (by rw [hNv]; exact hN0)
          rw [hgD]
          unfold b58encode
          have htkb : (List.replicate (s.takeWhile (fun c => c = '1')).length (0 : Nat) ++
              (g :: D)).takeWhile (fun c => c = 0) =
              List.replicate (s.takeWhile (fun c => c = '1')).length 0 := by
            apply takeWhile_replicate_append
            intro hh
            simpa using hg0
          rw [htkb, List.length_replicate]
          have hfb : foldVal 256 (List.replicate
              (s.takeWhile (fun c => c = '1')).length (0 : Nat) ++ (g :: D)) =
              Nat.ofDigits 58 v2.reverse := by
            rw [foldVal_zeros_append]
            have hgd : (g :: D).reverse = D.reverse ++ [g] := by simp
            rw [hgd, hrevD, Nat.ofDigits_digits]
            exact hNv
          rw [hfb]
          have hd58 : Nat.digits 58 (Nat.ofDigits 58 v2.reverse) = v2.reverse := by
            apply Nat.digits_ofDigits 58 (by omega)
            · intro l hl
              exact hrlt l (List.mem_reverse.mp hl)
            · intro hne2
              have hv2ne : v2 ≠ [] := by
                intro hnil
                rw [hnil] at hne2
                simp at hne2
              rw [getLast_reverse_eq_head v2 hv2ne hne2]
              have hhead : v2.head hv2ne = vh := by
                have h1 : v2.head? = some vh := by rw [← hv2r]; rfl
                have h2 : v2.head? = some (v2.head hv2ne) := List.head?_eq_head hv2ne
                rw [h1] at h2
                exact (Option.some_injective _ h2).symm
              rw [hhead]
              exact hvh0
          rw [natToBE_eq_digits (by omega), hd58, List.reverse_reverse, ← hrmap]
          exact hsrep

/-- C10: Address encoding and decoding are mutually inverse: decoding the
base58 encoding of any 32-byte public key yields the key again, and
re-encoding any valid base58 string's 32-byte decoding reproduces the
string exactly. -/
theorem c10_address_codec_round_trip :
    (∀ k : List Nat, k.length = 32 → (∀ x ∈ k, x < 256) →
      b58decode (b58encode k) = some k) ∧
    (∀ (s : List Char) (bytes : List Nat), b58decode s = some bytes →
      bytes.length = 32 → b58encode bytes = s) := by
  constructor
  · intro k _ hlt
    exact b58_decode_encode hlt
  · intro s bytes h _
    exact b58_encode_decode h

theorem c10_witness :
    ((List.replicate 32 (0 : Nat)).length = 32 ∧
      (∀ x ∈ List.replicate 32 (0 : Nat), x < 256) ∧
      b58decode (b58encode (List.replicate 32 0)) = some (List.replicate 32 0)) ∧
    (b58decode (List.replicate 32 '1') = some (List.replicate 32 0) ∧
      (List.replicate 32 (0 : Nat)).length = 32 ∧
      b58encode (List.replicate 32 0) = List.replicate 32 '1') :=
  ⟨⟨rfl, by decide,
      c10_address_codec_round_trip.1 (List.replicate 32 0) rfl (by decide)⟩,
    ⟨by decide, rfl,
      c10_address_codec_round_trip.2 (List.replicate 32 '1') (List.replicate 32 0)
        (by decide) rfl⟩⟩

/-- C1: for every pair of 32-byte keys and positive amount, the native
transfer builder used by `send_solana` yields the system program id,
exactly the two accounts `[from signer+writable, to writable]`, and data
equal to the fixed tag `[2,0,0,0]` followed by the 8-byte little-endian
amount. -/
theorem c1_transfer_native_shape (from_ to_ : List Nat) (amount : Nat)
    (_hf : from_.length = 32) (_ht : to_.length = 32) (_ha : 0 < amount) :
    (system_transfer from_ to_ amount).program_id = systemProgramId ∧
    (system_transfer from_ to_ amount).accounts =
      [⟨from_, true, true⟩, ⟨to_, false, true⟩] ∧
    (system_transfer from_ to_ amount).data = [2, 0, 0, 0] ++ le8 amount :=
  ⟨rfl, rfl, rfl⟩

theorem c1_witness :
    (List.replicate 32 (0 : Nat)).length = 32 ∧ (List.replicate 32 (1 : Nat)).length = 32 ∧
    0 < 1000 ∧
    ((system_transfer (List.replicate 32 0) (List.replicate 32 1) 1000).program_id =
        systemProgramId ∧
      (system_transfer (List.replicate 32 0) (List.replicate 32 1) 1000).accounts =
        [⟨List.replicate 32 0, true, true⟩, ⟨List.replicate 32 1, false, true⟩] ∧
      (system_transfer (List.replicate 32 0) (List.replicate 32 1) 1000).data =
        [2, 0, 0, 0] ++ le8 1000) :=
  ⟨rfl, rfl, by decide,
    c1_transfer_native_shape (List.replicate 32 0) (List.replicate 32 1) 1000
      rfl rfl (by decide)⟩

/-- C4: for every valid mint and mint-authority key and any decimals
byte, `create_token` produces the SPL initialize-mint instruction whose
data is tag 0, the decimals byte, the mint authority, presence flag 1,
and the freeze authority equal to the mint authority, with accounts
`[mint writable non-signer, rent sysvar]`. -/
theorem c4_initialize_mint_shape (ma ms : List Char) (d : Nat)
    (auth mint : List Nat) (_hd : d < 256)
    (hma : parsePubkey ma = some auth) (hms : parsePubkey ms = some mint) :
    createToken ⟨some ma, some ms, some d⟩ =
      Except.ok
        { program_id := b58encode splTokenId
          accounts := [⟨b58encode mint, false, true⟩,
            ⟨b58encode rentSysvarId, false, false⟩]
          instruction_data := b64encode (0 :: d :: auth ++ 1 :: auth) } := by
  simp [createToken, hma, hms, initialize_mint, encodeAccounts]

theorem c4_witness :
    (9 : Nat) < 256 ∧
    parsePubkey (List.replicate 32 '1') = some (List.replicate 32 0) ∧
    createToken ⟨some (List.replicate 32 '1'), some (List.replicate 32 '1'), some 9⟩ =
      Except.ok
        { program_id := b58encode splTokenId
          accounts := [⟨b58encode (List.replicate 32 0), false, true⟩,
            ⟨b58encode rentSysvarId, false, false⟩]
          instruction_data :=
            b64encode (0 :: 9 :: List.replicate 32 0 ++ 1 :: List.replicate 32 0) } :=
  ⟨by decide, by decide,
    c4_initialize_mint_shape (List.replicate 32 '1') (List.replicate 32 '1') 9
      (List.replicate 32 0) (List.replicate 32 0) (by decide) (by decide) (by decide)⟩

/-- C5: for every valid mint, destination and authority key and nonzero
amount, `mint_token` produces the SPL mint-to instruction with accounts
`[mint writable, destination writable, authority signer]` in that order
and data equal to tag 7 followed by the 8-byte little-endian amount. -/
theorem c5_mint_to_shape (ms ds as : List Char) (mint dest auth : List Nat)
    (amount : Nat)
    (hm : b58decode ms = some mint) (hm32 : mint.length = 32)
    (hd : b58decode ds = some dest) (hd32 : dest.length = 32)
    (ha : b58decode as = some auth) (ha32 : auth.length = 32)
    (hbm : isBlank ms = false) (hbd : isBlank ds = false) (hba : isBlank as = false)
    (hamt : amount ≠ 0) :
    mintToken ⟨some ms, some ds, some as, some amount⟩ =
      Except.ok
        { program_id := b58encode splTokenId
          accounts := [⟨b58encode mint, false, true⟩, ⟨b58encode dest, false, true⟩,
            ⟨b58encode auth, true, false⟩]
          instruction_data := b64encode (7 :: le8 amount) } := by
  simp [mintToken, hbm, hbd, hba, hamt, hm, hd, ha, pubkeyTryFrom, hm32, hd32, ha32,
    mint_to, encodeAccounts]

theorem c5_witness :
    b58decode (List.replicate 32 '1') = some (List.replicate 32 0) ∧
    (List.replicate 32 (0 : Nat)).length = 32 ∧
    isBlank (List.replicate 32 '1') = false ∧ (1 : Nat) ≠ 0 ∧
    mintToken ⟨some (List.replicate 32 '1'), some (List.replicate 32 '1'),
        some (List.replicate 32 '1'), some 1⟩ =
      Except.ok
        { program_id := b58encode splTokenId
          accounts := [⟨b58encode (List.replicate 32 0), false, true⟩,
            ⟨b58encode (List.replicate 32 0), false, true⟩,
            ⟨b58encode (List.replicate 32 0), true, false⟩]
          instruction_data := b64encode (7 :: le8 1) } :=
  ⟨by decide, rfl, by decide, by decide,
    c5_mint_to_shape (List.replicate 32 '1') (List.replicate 32 '1')
      (List.replicate 32 '1') (List.replicate 32 0) (List.replicate 32 0)
      (List.replicate 32 0) 1 (by decide) rfl (by decide) rfl (by decide) rfl
      (by decide) (by decide) (by decide) (by decide)⟩

/-- C9: for every valid `send_token` request the source position of the
token transfer, returned as the first entry of the response's account
list, holds the decoded value of the request's `mint` field. -/
theorem c9_send_token_source_is_mint (ds ms os : List Char)
    (dest mintb owner : List Nat) (amount : Nat)
    (hd : b58decode ds = some dest) (hd32 : dest.length = 32)
    (hm : b58decode ms = some mintb) (hm32 : mintb.length = 32)
    (ho : b58decode os = some owner) (ho32 : owner.length = 32)
    (hbd : isBlank ds = false) (hbm : isBlank ms = false) (hbo : isBlank os = false)
    (hamt : amount ≠ 0) :
    sendToken ⟨some ds, some ms, some os, some amount⟩ =
      Except.ok
        { program_id := b58encode splTokenId
          accounts := [⟨b58encode mintb, false, true⟩, ⟨b58encode dest, false, true⟩,
            ⟨b58encode owner, true, false⟩]
          instruction_data := b64encode (3 :: le8 amount) } ∧
    ∀ resp, sendToken ⟨some ds, some ms, some os, some amount⟩ = Except.ok resp →
      resp.accounts.head? = some ⟨b58encode mintb, false, true⟩ := by
  have hmain : sendToken ⟨some ds, some ms, some os, some amount⟩ =
      Except.ok
        { program_id := b58encode splTokenId
          accounts := [⟨b58encode mintb, false, true⟩, ⟨b58encode dest, false, true⟩,
            ⟨b58encode owner, true, false⟩]
          instruction_data := b64encode (3 :: le8 amount) } := by
    simp [sendToken, hbd, hbm, hbo, hamt, hd, hm, ho, pubkeyTryFrom, hd32, hm32, ho32,
      spl_transfer, encodeAccounts]
  refine ⟨hmain, ?_⟩
  intro resp hresp
  rw [hmain] at hresp
  simp only [Except.ok.injEq] at hresp
  rw [← hresp]
  rfl

theorem c9_witness :
    b58decode (List.replicate 32 '1') = some (List.replicate 32 0) ∧
    isBlank (List.replicate 32 '1') = false ∧ (5 : Nat) ≠ 0 ∧
    (sendToken ⟨some (List.replicate 32 '1'), some (List.replicate 32 '1'),
        some (List.replicate 32 '1'), some 5⟩ =
      Except.ok
        { program_id := b58encode splTokenId
          accounts := [⟨b58encode (List.replicate 32 0), false, true⟩,
            ⟨b58encode (List.replicate 32 0), false, true⟩,
            ⟨b58encode (List.replicate 32 0), true, false⟩]
          instruction_data := b64encode (3 :: le8 5) } ∧
      ∀ resp, sendToken ⟨some (List.replicate 32 '1'), some (List.replicate 32 '1'),
          some (List.replicate 32 '1'), some 5⟩ = Except.ok resp →
        resp.accounts.head? = some ⟨b58encode (List.replicate 32 0), false, true⟩) :=
  ⟨by decide, by decide, by decide,
    c9_send_token_source_is_mint (List.replicate 32 '1') (List.replicate 32 '1')
      (List.replicate 32 '1') (List.replicate 32 0) (List.replicate 32 0)
      (List.replicate 32 0) 5 (by decide) rfl (by decide) rfl (by decide) rfl
      (by decide) (by decide) (by decide) (by decide)⟩

/-- C3: every amount-taking builder entry point (mint-to, native
transfer, token transfer) rejects `amount = 0` with the invalid-amount
error before any address is decoded or instruction constructed (the
address strings may be arbitrary non-blank text), while any nonzero
amount succeeds on valid inputs with data carrying the 8-byte
little-endian payload, which represents every u64 amount exactly. -/
theorem c3_amount_guard :
    (∀ ms ds as : List Char, isBlank ms = false → isBlank ds = false →
      isBlank as = false →
      mintToken ⟨some ms, some ds, some as, some 0⟩ =
        Except.error (("Amount must be greater than 0").toList)) ∧
    (∀ fs ts : List Char, isBlank fs = false → isBlank ts = false →
      sendSolana ⟨some fs, some ts, some 0⟩ =
        Except.error (("Amount must be greater than 0").toList)) ∧
    (∀ ds ms os : List Char, isBlank ds = false → isBlank ms = false →
      isBlank os = false →
      sendToken ⟨some ds, some ms, some os, some 0⟩ =
        Except.error (("Amount must be greater than 0").toList)) ∧
    (∀ (ms ds as : List Char) (mint dest auth : List Nat) (amount : Nat),
      b58decode ms = some mint → mint.length = 32 → isBlank ms = false →
      b58decode ds = some dest → dest.length = 32 → isBlank ds = false →
      b58decode as = some auth → auth.length = 32 → isBlank as = false →
      amount ≠ 0 →
      ∃ resp, mintToken ⟨some ms, some ds, some as, some amount⟩ = Except.ok resp ∧
        resp.instruction_data = b64encode (7 :: le8 amount)) ∧
    (∀ (fs ts : List Char) (fromb tob : List Nat) (amount : Nat),
      b58decode fs = some fromb → fromb.length = 32 → isBlank fs = false →
      b58decode ts = some tob → tob.length = 32 → isBlank ts = false →
      amount ≠ 0 →
      ∃ resp, sendSolana ⟨some fs, some ts, some amount⟩ = Except.ok resp ∧
        resp.instruction_data = b64encode ([2, 0, 0, 0] ++ le8 amount)) ∧
    (∀ (ds ms os : List Char) (dest mintb owner : List Nat) (amount : Nat),
      b58decode ds = some dest → dest.length = 32 → isBlank ds = false →
      b58decode ms = some mintb → mintb.length = 32 → isBlank ms = false →
      b58decode os = some owner → owner.length = 32 → isBlank os = false →
      amount ≠ 0 →
      ∃ resp, sendToken ⟨some ds, some ms, some os, some amount⟩ = Except.ok resp ∧
        resp.instruction_data = b64encode (3 :: le8 amount)) ∧
    (∀ amount : Nat, amount < 18446744073709551616 →
      Nat.ofDigits 256 (le8 amount) = amount) := by
  refine ⟨?_, ?_, ?_, ?_, ?_, ?_, ?_⟩
  · intro ms ds as h1 h2 h3
    simp [mintToken, h1, h2, h3]
  · intro fs ts h1 h2
    simp [sendSolana, h1, h2]
  · intro ds ms os h1 h2 h3
    simp [sendToken, h1, h2, h3]
  · intro ms ds as mint dest auth amount hm hm32 hbm hd hd32 hbd ha ha32 hba hamt
    refine ⟨⟨b58encode splTokenId,
      [⟨b58encode mint, false, true⟩, ⟨b58encode dest, false, true⟩,
        ⟨b58encode auth, true, false⟩],
      b64encode (7 :: le8 amount)⟩, ?_, rfl⟩
    simp [mintToken, hbm, hbd, hba, hamt, hm, hd, ha, pubkeyTryFrom,
      hm32, hd32, ha32, mint_to, encodeAccounts]
  · intro fs ts fromb tob amount hf hf32 hbf ht ht32 hbt hamt
    refine ⟨⟨b58encode systemProgramId,
      [⟨b58encode fromb, true, true⟩, ⟨b58encode tob, false, true⟩],
      b64encode ([2, 0, 0, 0] ++ le8 amount)⟩, ?_, rfl⟩
    simp [sendSolana, hbf, hbt, hamt, hf, ht, pubkeyTryFrom, hf32, ht32,
      system_transfer, encodeAccounts]
  · intro ds ms os dest mintb owner amount hd hd32 hbd hm hm32 hbm ho ho32 hbo hamt
    refine ⟨⟨b58encode splTokenId,
      [⟨b58encode mintb, false, true⟩, ⟨b58encode dest, false, true⟩,
        ⟨b58encode owner, true, false⟩],
      b64encode (3 :: le8 amount)⟩, ?_, rfl⟩
    simp [sendToken, hbd, hbm, hbo, hamt, hd, hm, ho, pubkeyTryFrom,
      hd32, hm32, ho32, spl_transfer, encodeAccounts]
  · intro amount hlt
    simp only [le8, Nat.ofDigits_cons, Nat.ofDigits_nil, Nat.cast_id]
    omega

theorem c3_witness :
    (isBlank (("x").toList) = false ∧
      mintToken ⟨some (("x").toList), some (("x").toList), some (("x").toList), some 0⟩ =
        Except.error (("Amount must be greater than 0").toList)) ∧
    (sendSolana ⟨some (("x").toList), some (("x").toList), some 0⟩ =
      Except.error (("Amount must be greater than 0").toList)) ∧
    (sendToken ⟨some (("x").toList), some (("x").toList), some (("x").toList), some 0⟩ =
      Except.error (("Amount must be greater than 0").toList)) ∧
    (b58decode (List.replicate 32 '1') = some (List.replicate 32 0) ∧ (1 : Nat) ≠ 0 ∧
      ∃ resp, mintToken ⟨some (List.replicate 32 '1'), some (List.replicate 32 '1'),
          some (List.replicate 32 '1'), some 1⟩ = Except.ok resp ∧
        resp.instruction_data = b64encode (7 :: le8 1)) ∧
    ((18446744073709551615 : Nat) ≠ 0 ∧
      ∃ resp, sendSolana ⟨some (List.replicate 32 '1'), some (List.replicate 32 '1'),
          some 18446744073709551615⟩ = Except.ok resp ∧
        resp.instruction_data = b64encode ([2, 0, 0, 0] ++ le8 18446744073709551615)) ∧
    (∃ resp, sendToken ⟨some (List.replicate 32 '1'), some (List.replicate 32 '1'),
        some (List.replicate 32 '1'), some 7⟩ = Except.ok resp ∧
      resp.instruction_data = b64encode (3 :: le8 7)) ∧
    Nat.ofDigits 256 (le8 18446744073709551615) = 18446744073709551615 :=
  ⟨⟨by decide, c3_amount_guard.1 (("x").toList) (("x").toList) (("x").toList)
      (by decide) (by decide) (by decide)⟩,
    c3_amount_guard.2.1 (("x").toList) (("x").toList) (by decide) (by decide),
    c3_amount_guard.2.2.1 (("x").toList) (("x").toList) (("x").toList)
      (by decide) (by decide) (by decide),
    ⟨by decide, by decide,
      c3_amount_guard.2.2.2.1 (List.replicate 32 '1') (List.replicate 32 '1')
        (List.replicate 32 '1') (List.replicate 32 0) (List.replicate 32 0)
        (List.replicate 32 0) 1 (by decide) (by decide) (by decide) (by decide)
        (by decide) (by decide) (by decide) (by decide) (by decide) (by decide)⟩,
    ⟨by decide,
      c3_amount_guard.2.2.2.2.1 (List.replicate 32 '1') (List.replicate 32 '1')
        (List.replicate 32 0) (List.replicate 32 0) 18446744073709551615
        (by decide) (by decide) (by decide) (by decide) (by decide) (by decide)
        (by decide)⟩,
    c3_amount_guard.2.2.2.2.2.1 (List.replicate 32 '1') (List.replicate 32 '1')
      (List.replicate 32 '1') (List.replicate 32 0) (List.replicate 32 0)
      (List.replicate 32 0) 7 (by decide) (by decide) (by decide) (by decide)
      (by decide) (by decide) (by decide) (by decide) (by decide) (by decide),
    c3_amount_guard.2.2.2.2.2.2 18446744073709551615 (by decide)⟩

/-- C6 counterexample: in `create_token` the two address-decoding failure
kinds are collapsed into one error: the string `0` (not valid base58) and
the string `2` (valid base58, decodes to 1 byte instead of 32) both
produce the identical `Invalid mint authority public key` error response,
contradicting the claim that the two cases always yield distinct typed
errors on every endpoint. -/
theorem c6_counterexample :
    createToken ⟨some (("0").toList), some (List.replicate 32 '1'), some 9⟩ =
      Except.error (("Invalid mint authority public key").toList) ∧
    createToken ⟨some (("2").toList), some (List.replicate 32 '1'), some 9⟩ =
      Except.error (("Invalid mint authority public key").toList) ∧
    createToken ⟨some (("0").toList), some (List.replicate 32 '1'), some 9⟩ =
      createToken ⟨some (("2").toList), some (List.replicate 32 '1'), some 9⟩ :=
  ⟨rfl, rfl, rfl⟩

/-- C6 amended: every address-bearing field of the endpoints that decode
addresses with an explicit base58-decode-then-construct sequence —
`mint_token` (mint, destination, authority), `send_sol` (from, to),
`send_token` (destination, source/mint, owner), the signing endpoint's
private key and the verify endpoint's wallet address — distinguishes a
bad encoding from a wrong decoded length with two distinct typed errors;
but `create_token`, which parses its mint-authority and mint fields with
a single string-to-key parse, collapses both failure kinds into one
error per field, so the distinction does not hold on every endpoint. -/
theorem c6_amended_decode_errors :
    (∀ (ms ds as : List Char) (a : Nat), isBlank ms = false → isBlank ds = false →
      isBlank as = false → a ≠ 0 → b58decode ms = none →
      mintToken ⟨some ms, some ds, some as, some a⟩ =
        Except.error (("Invalid mint public key format").toList)) ∧
    (∀ (ms ds as : List Char) (a : Nat) (bs : List Nat), isBlank ms = false →
      isBlank ds = false → isBlank as = false → a ≠ 0 →
      b58decode ms = some bs → bs.length ≠ 32 →
      mintToken ⟨some ms, some ds, some as, some a⟩ =
        Except.error (("Invalid mint public key").toList)) ∧
    (∀ (ms ds as : List Char) (a : Nat) (mb : List Nat), isBlank ms = false →
      isBlank ds = false → isBlank as = false → a ≠ 0 →
      b58decode ms = some mb → mb.length = 32 → b58decode ds = none →
      mintToken ⟨some ms, some ds, some as, some a⟩ =
        Except.error (("Invalid destination public key format").toList)) ∧
    (∀ (ms ds as : List Char) (a : Nat) (mb bs : List Nat), isBlank ms = false →
      isBlank ds = false → isBlank as = false → a ≠ 0 →
      b58decode ms = some mb → mb.length = 32 →
      b58decode ds = some bs → bs.length ≠ 32 →
      mintToken ⟨some ms, some ds, some as, some a⟩ =
        Except.error (("Invalid destination public key").toList)) ∧
    (∀ (ms ds as : List Char) (a : Nat) (mb db : List Nat), isBlank ms = false →
      isBlank ds = false → isBlank as = false → a ≠ 0 →
      b58decode ms = some mb → mb.length = 32 →
      b58decode ds = some db → db.length = 32 → b58decode as = none →
      mintToken ⟨some ms, some ds, some as, some a⟩ =
        Except.error (("Invalid authority public key format").toList)) ∧
    (∀ (ms ds as : List Char) (a : Nat) (mb db bs : List Nat), isBlank ms = false →
      isBlank ds = false → isBlank as = false → a ≠ 0 →
      b58decode ms = some mb → mb.length = 32 →
      b58decode ds = some db → db.length = 32 →
      b58decode as = some bs → bs.length ≠ 32 →
      mintToken ⟨some ms, some ds, some as, some a⟩ =
        Except.error (("Invalid authority public key").toList)) ∧
    (∀ (fs ts : List Char) (a : Nat), isBlank fs = false → isBlank ts = false →
      a ≠ 0 → b58decode fs = none →
      sendSolana ⟨some fs, some ts, some a⟩ =
        Except.error (("Invalid from public key format").toList)) ∧
    (∀ (fs ts : List Char) (a : Nat) (bs : List Nat), isBlank fs = false →
      isBlank ts = false → a ≠ 0 → b58decode fs = some bs → bs.length ≠ 32 →
      sendSolana ⟨some fs, some ts, some a⟩ =
        Except.error (("Invalid from public key").toList)) ∧
    (∀ (fs ts : List Char) (a : Nat) (fb : List Nat), isBlank fs = false →
      isBlank ts = false → a ≠ 0 → b58decode fs = some fb → fb.length = 32 →
      b58decode ts = none →
      sendSolana ⟨some fs, some ts, some a⟩ =
        Except.error (("Invalid to public key format").toList)) ∧
    (∀ (fs ts : List Char) (a : Nat) (fb bs : List Nat), isBlank fs = false →
      isBlank ts = false → a ≠ 0 → b58decode fs = some fb → fb.length = 32 →
      b58decode ts = some bs → bs.length ≠ 32 →
      sendSolana ⟨some fs, some ts, some a⟩ =
        Except.error (("Invalid to public key").toList)) ∧
    (∀ (ds ms os : List Char) (a : Nat), isBlank ds = false → isBlank ms = false →
      isBlank os = false → a ≠ 0 → b58decode ds = none →
      sendToken ⟨some ds, some ms, some os, some a⟩ =
        Except.error (("Invalid destination public key format").toList)) ∧
    (∀ (ds ms os : List Char) (a : Nat) (bs : List Nat), isBlank ds = false →
      isBlank ms = false → isBlank os = false → a ≠ 0 →
      b58decode ds = some bs → bs.length ≠ 32 →
      sendToken ⟨some ds, some ms, some os, some a⟩ =
        Except.error (("Invalid destination public key").toList)) ∧
    (∀ (ds ms os : List Char) (a : Nat) (db : List Nat), isBlank ds = false →
      isBlank ms = false → isBlank os = false → a ≠ 0 →
      b58decode ds = some db → db.length = 32 → b58decode ms = none →
      sendToken ⟨some ds, some ms, some os, some a⟩ =
        Except.error (("Invalid source public key format").toList)) ∧
    (∀ (ds ms os : List Char) (a : Nat) (db bs : List Nat), isBlank ds = false →
      isBlank ms = false → isBlank os = false → a ≠ 0 →
      b58decode ds = some db → db.length = 32 →
      b58decode ms = some bs → bs.length ≠ 32 →
      sendToken ⟨some ds, some ms, some os, some a⟩ =
        Except.error (("Invalid source public key").toList)) ∧
    (∀ (ds ms os : List Char) (a : Nat) (db mb : List Nat), isBlank ds = false →
      isBlank ms = false → isBlank os = false → a ≠ 0 →
      b58decode ds = some db → db.length = 32 →
      b58decode ms = some mb → mb.length = 32 → b58decode os = none →
      sendToken ⟨some ds, some ms, some os, some a⟩ =
        Except.error (("Invalid owner public key format").toList)) ∧
    (∀ (ds ms os : List Char) (a : Nat) (db mb bs : List Nat), isBlank ds = false →
      isBlank ms = false → isBlank os = false → a ≠ 0 →
      b58decode ds = some db → db.length = 32 →
      b58decode ms = some mb → mb.length = 32 →
      b58decode os = some bs → bs.length ≠ 32 →
      sendToken ⟨some ds, some ms, some os, some a⟩ =
        Except.error (("Invalid owner public key").toList)) ∧
    (∀ (signFn : List Nat → List Char → List Nat) (keypairOk : List Nat → Bool)
      (t k : List Char), isBlank t = false → isBlank k = false →
      b58decode k = none →
      processMessageSigning signFn keypairOk ⟨some t, some k⟩ =
        Except.error (("Invalid private key encoding").toList)) ∧
    (∀ (signFn : List Nat → List Char → List Nat) (keypairOk : List Nat → Bool)
      (t k : List Char) (bs : List Nat), isBlank t = false → isBlank k = false →
      b58decode k = some bs → bs.length ≠ 64 →
      processMessageSigning signFn keypairOk ⟨some t, some k⟩ =
        Except.error (("Private key must be 64 bytes long").toList)) ∧
    (∀ (verifyFn : List Nat → List Nat → List Char → Bool) (ts ss was : List Char),
      isBlank ts = false → isBlank ss = false → isBlank was = false →
      b58decode was = none →
      authenticateMessageSignature verifyFn ⟨some ts, some ss, some was⟩ =
        Except.error (("Wallet address encoding is invalid").toList)) ∧
    (∀ (verifyFn : List Nat → List Nat → List Char → Bool) (ts ss was : List Char)
      (bs : List Nat), isBlank ts = false → isBlank ss = false →
      isBlank was = false → b58decode was = some bs → bs.length ≠ 32 →
      authenticateMessageSignature verifyFn ⟨some ts, some ss, some was⟩ =
        Except.error (("Cannot parse wallet address").toList)) ∧
    (("Invalid mint public key format").toList ≠ ("Invalid mint public key").toList ∧
      ("Invalid destination public key format").toList ≠
        ("Invalid destination public key").toList ∧
      ("Invalid authority public key format").toList ≠
        ("Invalid authority public key").toList ∧
      ("Invalid from public key format").toList ≠ ("Invalid from public key").toList ∧
      ("Invalid to public key format").toList ≠ ("Invalid to public key").toList ∧
      ("Invalid source public key format").toList ≠
        ("Invalid source public key").toList ∧
      ("Invalid owner public key format").toList ≠ ("Invalid owner public key").toList ∧
      ("Invalid private key encoding").toList ≠
        ("Private key must be 64 bytes long").toList ∧
      ("Wallet address encoding is invalid").toList ≠
        ("Cannot parse wallet address").toList) ∧
    (∀ (ma : List Char) (ms : Option (List Char)) (d : Option Nat),
      parsePubkey ma = none →
      createToken ⟨some ma, ms, d⟩ =
        Except.error (("Invalid mint authority public key").toList)) ∧
    (∀ (ma ms : List Char) (d : Option Nat) (auth : List Nat),
      parsePubkey ma = some auth → parsePubkey ms = none →
      createToken ⟨some ma, some ms, d⟩ =
        Except.error (("Invalid mint public key").toList)) := by
  refine ⟨?_, ?_, ?_, ?_, ?_, ?_, ?_, ?_, ?_, ?_, ?_, ?_, ?_, ?_, ?_, ?_, ?_, ?_,
    ?_, ?_, by decide, ?_, ?_⟩
  · intro ms ds as a h1 h2 h3 h4 h5
    simp [mintToken, h1, h2, h3, h4, h5]
  · intro ms ds as a bs h1 h2 h3 h4 h5 h6
    simp [mintToken, h1, h2, h3, h4, h5, h6, pubkeyTryFrom]
  · intro ms ds as a mb h1 h2 h3 h4 h5 h6 h7
    simp [mintToken, h1, h2, h3, h4, h5, h6, h7, pubkeyTryFrom]
  · intro ms ds as a mb bs h1 h2 h3 h4 h5 h6 h7 h8
    simp [mintToken, h1, h2, h3, h4, h5, h6, h7, h8, pubkeyTryFrom]
  · intro ms ds as a mb db h1 h2 h3 h4 h5 h6 h7 h8 h9
    simp [mintToken, h1, h2, h3, h4, h5, h6, h7, h8, h9, pubkeyTryFrom]
  · intro ms ds as a mb db bs h1 h2 h3 h4 h5 h6 h7 h8 h9 h10
    simp [mintToken, h1, h2, h3, h4, h5, h6, h7, h8, h9, h10, pubkeyTryFrom]
  · intro fs ts a h1 h2 h3 h4
    simp [sendSolana, h1, h2, h3, h4]
  · intro fs ts a bs h1 h2 h3 h4 h5
    simp [sendSolana, h1, h2, h3, h4, h5, pubkeyTryFrom]
  · intro fs ts a fb h1 h2 h3 h4 h5 h6
    simp [sendSolana, h1, h2, h3, h4, h5, h6, pubkeyTryFrom]
  · intro fs ts a fb bs h1 h2 h3 h4 h5 h6 h7
    simp [sendSolana, h1, h2, h3, h4, h5, h6, h7, pubkeyTryFrom]
  · intro ds ms os a h1 h2 h3 h4 h5
    simp [sendToken, h1, h2, h3, h4, h5]
  · intro ds ms os a bs h1 h2 h3 h4 h5 h6
    simp [sendToken, h1, h2, h3, h4, h5, h6, pubkeyTryFrom]
  · intro ds ms os a db h1 h2 h3 h4 h5 h6 h7
    simp [sendToken, h1, h2, h3, h4, h5, h6, h7, pubkeyTryFrom]
  · intro ds ms os a db bs h1 h2 h3 h4 h5 h6 h7 h8
    simp [sendToken, h1, h2, h3, h4, h5, h6, h7, h8, pubkeyTryFrom]
  · intro ds ms os a db mb h1 h2 h3 h4 h5 h6 h7 h8 h9
    simp [sendToken, h1, h2, h3, h4, h5, h6, h7, h8, h9, pubkeyTryFrom]
  · intro ds ms os a db mb bs h1 h2 h3 h4 h5 h6 h7 h8 h9 h10
    simp [sendToken, h1, h2, h3, h4, h5, h6, h7, h8, h9, h10, pubkeyTryFrom]
  · intro signFn keypairOk t k h1 h2 h3
    simp [processMessageSigning, h1, h2, h3]
  · intro signFn keypairOk t k bs h1 h2 h3 h4
    simp [processMessageSigning, h1, h2, h3, h4]
  · intro verifyFn ts ss was h1 h2 h3 h4
    simp [authenticateMessageSignature, h1, h2, h3, h4]
  · intro verifyFn ts ss was bs h1 h2 h3 h4 h5
    simp [authenticateMessageSignature, h1, h2, h3, h4, h5, pubkeyTryFrom]
  · intro ma ms d h
    simp [createToken, h]
  · intro ma ms d auth h1 h2
    simp [createToken, h1, h2]

set_option maxRecDepth 8192 in
theorem c6_witness :
    (isBlank (("x").toList) = false ∧ b58decode (("0").toList) = none ∧
      b58decode (("2").toList) = some [1] ∧ ([1] : List Nat).length ≠ 32 ∧
      b58decode (List.replicate 32 '1') = some (List.replicate 32 0) ∧
      (List.replicate 32 (0 : Nat)).length = 32 ∧
      parsePubkey (("0").toList) = none ∧ parsePubkey (("2").toList) = none ∧
      parsePubkey (List.replicate 32 '1') = some (List.replicate 32 0)) ∧
    (mintToken ⟨some (("0").toList), some (("x").toList), some (("x").toList), some 3⟩ =
        Except.error (("Invalid mint public key format").toList) ∧
      mintToken ⟨some (("2").toList), some (("x").toList), some (("x").toList), some 3⟩ =
        Except.error (("Invalid mint public key").toList) ∧
      mintToken ⟨some (List.replicate 32 '1'), some (("0").toList), some (("x").toList),
          some 3⟩ =
        Except.error (("Invalid destination public key format").toList) ∧
      mintToken ⟨some (List.replicate 32 '1'), some (("2").toList), some (("x").toList),
          some 3⟩ =
        Except.error (("Invalid destination public key").toList) ∧
      mintToken ⟨some (List.replicate 32 '1'), some (List.replicate 32 '1'),
          some (("0").toList), some 3⟩ =
        Except.error (("Invalid authority public key format").toList) ∧
      mintToken ⟨some (List.replicate 32 '1'), some (List.replicate 32 '1'),
          some (("2").toList), some 3⟩ =
        Except.error (("Invalid authority public key").toList)) ∧
    (sendSolana ⟨some (("0").toList), some (("x").toList), some 3⟩ =
        Except.error (("Invalid from public key format").toList) ∧
      sendSolana ⟨some (("2").toList), some (("x").toList), some 3⟩ =
        Except.error (("Invalid from public key").toList) ∧
      sendSolana ⟨some (List.replicate 32 '1'), some (("0").toList), some 3⟩ =
        Except.error (("Invalid to public key format").toList) ∧
      sendSolana ⟨some (List.replicate 32 '1'), some (("2").toList), some 3⟩ =
        Except.error (("Invalid to public key").toList)) ∧
    (sendToken ⟨some (("0").toList), some (("x").toList), some (("x").toList), some 3⟩ =
        Except.error (("Invalid destination public key format").toList) ∧
      sendToken ⟨some (("2").toList), some (("x").toList), some (("x").toList), some 3⟩ =
        Except.error (("Invalid destination public key").toList) ∧
      sendToken ⟨some (List.replicate 32 '1'), some (("0").toList), some (("x").toList),
          some 3⟩ =
        Except.error (("Invalid source public key format").toList) ∧
      sendToken ⟨some (List.replicate 32 '1'), some (("2").toList), some (("x").toList),
          some 3⟩ =
        Except.error (("Invalid source public key").toList) ∧
      sendToken ⟨some (List.replicate 32 '1'), some (List.replicate 32 '1'),
          some (("0").toList), some 3⟩ =
        Except.error (("Invalid owner public key format").toList) ∧
      sendToken ⟨some (List.replicate 32 '1'), some (List.replicate 32 '1'),
          some (("2").toList), some 3⟩ =
        Except.error (("Invalid owner public key").toList)) ∧
    (processMessageSigning (fun _ _ => []) (fun _ => true)
          ⟨some (("x").toList), some (("0").toList)⟩ =
        Except.error (("Invalid private key encoding").toList) ∧
      processMessageSigning (fun _ _ => []) (fun _ => true)
          ⟨some (("x").toList), some (("2").toList)⟩ =
        Except.error (("Private key must be 64 bytes long").toList)) ∧
    (authenticateMessageSignature (fun _ _ _ => false)
          ⟨some (("x").toList), some (("x").toList), some (("0").toList)⟩ =
        Except.error (("Wallet address encoding is invalid").toList) ∧
      authenticateMessageSignature (fun _ _ _ => false)
          ⟨some (("x").toList), some (("x").toList), some (("2").toList)⟩ =
        Except.error (("Cannot parse wallet address").toList)) ∧
    (createToken ⟨some (("0").toList), none, none⟩ =
        Except.error (("Invalid mint authority public key").toList) ∧
      createToken ⟨some (("2").toList), none, none⟩ =
        Except.error (("Invalid mint authority public key").toList) ∧
      createToken ⟨some (List.replicate 32 '1'), some (("0").toList), none⟩ =
        Except.error (("Invalid mint public key").toList) ∧
      createToken ⟨some (List.replicate 32 '1'), some (("2").toList), none⟩ =
        Except.error (("Invalid mint public key").toList)) := by
  obtain ⟨hA1, hA2, hA3, hA4, hA5, hA6, hB1, hB2, hB3, hB4, hC1, hC2, hC3, hC4,
    hC5, hC6, hD1, hD2, hE1, hE2, _hdist, hF1, hF2⟩ := c6_amended_decode_errors
  refine ⟨⟨by decide, by decide, by decide, by decide, by decide, by decide,
      by decide, by decide, by decide⟩, ⟨?_, ?_, ?_, ?_, ?_, ?_⟩, ⟨?_, ?_, ?_, ?_⟩,
    ⟨?_, ?_, ?_, ?_, ?_, ?_⟩, ⟨?_, ?_⟩, ⟨?_, ?_⟩, ⟨?_, ?_, ?_, ?_⟩⟩
  · exact hA1 (("0").toList) (("x").toList) (("x").toList) 3
      (by decide) (by decide) (by decide) (by decide) (by decide)
  · exact hA2 (("2").toList) (("x").toList) (("x").toList) 3 [1]
      (by decide) (by decide) (by decide) (by decide) (by decide) (by decide)
  · exact hA3 (List.replicate 32 '1') (("0").toList) (("x").toList) 3
      (List.replicate 32 0) (by decide) (by decide) (by decide) (by decide)
      (by decide) (by decide) (by decide)
  · exact hA4 (List.replicate 32 '1') (("2").toList) (("x").toList) 3
      (List.replicate 32 0) [1] (by decide) (by decide) (by decide) (by decide)
      (by decide) (by decide) (by decide) (by decide)
  · exact hA5 (List.replicate 32 '1') (List.replicate 32 '1') (("0").toList) 3
      (List.replicate 32 0) (List.replicate 32 0) (by decide) (by decide)
      (by decide) (by decide) (by decide) (by decide) (by decide) (by decide)
      (by decide)
  · exact hA6 (List.replicate 32 '1') (List.replicate 32 '1') (("2").toList) 3
      (List.replicate 32 0) (List.replicate 32 0) [1] (by decide) (by decide)
      (by decide) (by decide) (by decide) (by decide) (by decide) (by decide)
      (by decide) (by decide)
  · exact hB1 (("0").toList) (("x").toList) 3 (by decide) (by decide) (by decide)
      (by decide)
  · exact hB2 (("2").toList) (("x").toList) 3 [1] (by decide) (by decide)
      (by decide) (by decide) (by decide)
  · exact hB3 (List.replicate 32 '1') (("0").toList) 3 (List.replicate 32 0)
      (by decide) (by decide) (by decide) (by decide) (by decide) (by decide)
  · exact hB4 (List.replicate 32 '1') (("2").toList) 3 (List.replicate 32 0) [1]
      (by decide) (by decide) (by decide) (by decide) (by decide) (by decide)
      (by decide)
  · exact hC1 (("0").toList) (("x").toList) (("x").toList) 3
      (by decide) (by decide) (by decide) (by decide) (by decide)
  · exact hC2 (("2").toList) (("x").toList) (("x").toList) 3 [1]
      (by decide) (by decide) (by decide) (by decide) (by decide) (by decide)
  · exact hC3 (List.replicate 32 '1') (("0").toList) (("x").toList) 3
      (List.replicate 32 0) (by decide) (by decide) (by decide) (by decide)
      (by decide) (by decide) (by decide)
  · exact hC4 (List.replicate 32 '1') (("2").toList) (("x").toList) 3
      (List.replicate 32 0) [1] (by decide) (by decide) (by decide) (by decide)
      (by decide) (by decide) (by decide) (by decide)
  · exact hC5 (List.replicate 32 '1') (List.replicate 32 '1') (("0").toList) 3
      (List.replicate 32 0) (List.replicate 32 0) (by decide) (by decide)
      (by decide) (by decide) (by decide) (by decide) (by decide) (by decide)
      (by decide)
  · exact hC6 (List.replicate 32 '1') (List.replicate 32 '1') (("2").toList) 3
      (List.replicate 32 0) (List.replicate 32 0) [1] (by decide) (by decide)
      (by decide) (by decide) (by decide) (by decide) (by decide) (by decide)
      (by decide) (by decide)
  · exact hD1 (fun _ _ => []) (fun _ => true) (("x").toList) (("0").toList)
      (by decide) (by decide) (by decide)
  · exact hD2 (fun _ _ => []) (fun _ => true) (("x").toList) (("2").toList) [1]
      (by decide) (by decide) (by decide) (by decide)
  · exact hE1 (fun _ _ _ => false) (("x").toList) (("x").toList) (("0").toList)
      (by decide) (by decide) (by decide) (by decide)
  · exact hE2 (fun _ _ _ => false) (("x").toList) (("x").toList) (("2").toList) [1]
      (by decide) (by decide) (by decide) (by decide) (by decide)
  · exact hF1 (("0").toList) none none (by decide)
  · exact hF1 (("2").toList) none none (by decide)
  · exact hF2 (List.replicate 32 '1') (("0").toList) none (List.replicate 32 0)
      (by decide) (by decide)
  · exact hF2 (List.replicate 32 '1') (("2").toList) none (List.replicate 32 0)
      (by decide) (by decide)

/-- C7: with well-formed inputs (base58 wallet address decoding to 32
bytes, base64 signature decoding to 64 bytes, non-blank text) the verify
endpoint returns a success response whose `is_verified` field is exactly
the boolean produced by the Ed25519 verifier — a mismatch is `false`,
never an error — and every error response is produced before and
independently of the verification primitive. -/
theorem c7_verify_errors_before_crypto :
    (∀ (verifyFn : List Nat → List Nat → List Char → Bool)
      (ts ss as : List Char) (sigB addrB : List Nat),
      isBlank ts = false → isBlank ss = false → isBlank as = false →
      b58decode as = some addrB → addrB.length = 32 →
      b64decode ss = some sigB → sigB.length = 64 →
      authenticateMessageSignature verifyFn ⟨some ts, some ss, some as⟩ =
        Except.ok ⟨verifyFn sigB addrB ts, ts, as⟩) ∧
    (∀ (vf vf' : List Nat → List Nat → List Char → Bool) (req : VerifyRequest)
      (e : List Char),
      authenticateMessageSignature vf req = Except.error e →
      authenticateMessageSignature vf' req = Except.error e) := by
  constructor
  · intro verifyFn ts ss as sigB addrB h1 h2 h3 h4 h5 h6 h7
    simp [authenticateMessageSignature, h1, h2, h3, h4, h5, h6, h7, pubkeyTryFrom]
  · intro vf vf' req e h
    obtain ⟨t, sd, wa⟩ := req
    cases t with
    | none => exact h
    | some ts =>
      simp only [authenticateMessageSignature] at h ⊢
      by_cases hbt : isBlank ts = true
      · rw [if_pos hbt] at h ⊢
        exact h
      · rw [if_neg hbt] at h ⊢
        cases sd with
        | none => exact h
        | some ss =>
          dsimp only at h ⊢
          by_cases hbs : isBlank ss = true
          · rw [if_pos hbs] at h ⊢
            exact h
          · rw [if_neg hbs] at h ⊢
            cases wa with
            | none => exact h
            | some was =>
              dsimp only at h ⊢
              by_cases hbw : isBlank was = true
              · rw [if_pos hbw] at h ⊢
                exact h
              · rw [if_neg hbw] at h ⊢
                cases hw : b58decode was with
                | none => rw [hw] at h; exact h
                | some addrB =>
                  rw [hw] at h
                  dsimp only at h ⊢
                  cases hp : pubkeyTryFrom addrB with
                  | none => rw [hp] at h; exact h
                  | some wp =>
                    rw [hp] at h
                    dsimp only at h ⊢
                    cases hs : b64decode ss with
                    | none => rw [hs] at h; exact h
                    | some sigB =>
                      rw [hs] at h
                      dsimp only at h ⊢
                      by_cases hlen : sigB.length = 64
                      · rw [if_pos hlen] at h
                        exact Except.noConfusion h
                      · rw [if_neg hlen] at h ⊢
                        exact h

theorem c7_witness :
    (isBlank (("hello").toList) = false ∧
      b58decode (List.replicate 32 '1') = some (List.replicate 32 0) ∧
      b64decode (b64encode (List.replicate 64 0)) = some (List.replicate 64 0) ∧
      (List.replicate 64 (0 : Nat)).length = 64 ∧
      authenticateMessageSignature (fun _ _ _ => false)
          ⟨some (("hello").toList), some (b64encode (List.replicate 64 0)),
            some (List.replicate 32 '1')⟩ =
        Except.ok ⟨false, ("hello").toList, List.replicate 32 '1'⟩) ∧
    (authenticateMessageSignature (fun _ _ _ => false) ⟨none, none, none⟩ =
        Except.error (("Text field is mandatory").toList) ∧
      authenticateMessageSignature (fun _ _ _ => true) ⟨none, none, none⟩ =
        Except.error (("Text field is mandatory").toList)) :=
  ⟨⟨by decide, by decide, by decide, by decide,
      c7_verify_errors_before_crypto.1 (fun _ _ _ => false) (("hello").toList)
        (b64encode (List.replicate 64 0)) (List.replicate 32 '1')
        (List.replicate 64 0) (List.replicate 32 0) (by decide) (by decide)
        (by decide) (by decide) (by decide) (by decide) (by decide)⟩,
    ⟨rfl,
      c7_verify_errors_before_crypto.2 (fun _ _ _ => false) (fun _ _ _ => true)
        ⟨none, none, none⟩ (("Text field is mandatory").toList) rfl⟩⟩

/-- C8: keypair decoding in the signing endpoint proceeds in a fixed
order: base58 decoding first (encoding error on malformed input), then
the exact 64-byte length check (length error), and only then keypair
construction, which fails with the invalid-key error exactly when the
Ed25519 consistency check rejects the 64 bytes. -/
theorem c8_keypair_decode_order :
    (∀ (signFn : List Nat → List Char → List Nat) (keypairOk : List Nat → Bool)
      (t k : List Char), isBlank t = false → isBlank k = false →
      b58decode k = none →
      processMessageSigning signFn keypairOk ⟨some t, some k⟩ =
        Except.error (("Invalid private key encoding").toList)) ∧
    (∀ (signFn : List Nat → List Char → List Nat) (keypairOk : List Nat → Bool)
      (t k : List Char) (bs : List Nat), isBlank t = false → isBlank k = false →
      b58decode k = some bs → bs.length ≠ 64 →
      processMessageSigning signFn keypairOk ⟨some t, some k⟩ =
        Except.error (("Private key must be 64 bytes long").toList)) ∧
    (∀ (signFn : List Nat → List Char → List Nat) (keypairOk : List Nat → Bool)
      (t k : List Char) (bs : List Nat), isBlank t = false → isBlank k = false →
      b58decode k = some bs → bs.length = 64 → keypairOk bs = false →
      processMessageSigning signFn keypairOk ⟨some t, some k⟩ =
        Except.error (("Cannot create keypair from provided private key").toList)) := by
  refine ⟨?_, ?_, ?_⟩
  · intro signFn keypairOk t k h1 h2 h3
    simp [processMessageSigning, h1, h2, h3]
  · intro signFn keypairOk t k bs h1 h2 h3 h4
    simp [processMessageSigning, h1, h2, h3, h4]
  · intro signFn keypairOk t k bs h1 h2 h3 h4 h5
    simp [processMessageSigning, h1, h2, h3, h4, h5]

set_option maxRecDepth 8192 in
theorem c8_witness :
    (isBlank (("x").toList) = false ∧ b58decode (("0").toList) = none ∧
      processMessageSigning (fun _ _ => List.replicate 64 0) (fun _ => true)
          ⟨some (("x").toList), some (("0").toList)⟩ =
        Except.error (("Invalid private key encoding").toList)) ∧
    (b58decode (("2").toList) = some [1] ∧ ([1] : List Nat).length ≠ 64 ∧
      processMessageSigning (fun _ _ => List.replicate 64 0) (fun _ => true)
          ⟨some (("x").toList), some (("2").toList)⟩ =
        Except.error (("Private key must be 64 bytes long").toList)) ∧
    (b58decode (List.replicate 64 '1') = some (List.replicate 64 0) ∧
      (List.replicate 64 (0 : Nat)).length = 64 ∧
      processMessageSigning (fun _ _ => List.replicate 64 0) (fun _ => false)
          ⟨some (("x").toList), some (List.replicate 64 '1')⟩ =
        Except.error (("Cannot create keypair from provided private key").toList)) :=
  ⟨⟨by decide, by decide,
      c8_keypair_decode_order.1 (fun _ _ => List.replicate 64 0) (fun _ => true)
        (("x").toList) (("0").toList) (by decide) (by decide) (by decide)⟩,
    ⟨by decide, by decide,
      c8_keypair_decode_order.2.1 (fun _ _ => List.replicate 64 0) (fun _ => true)
        (("x").toList) (("2").toList) [1] (by decide) (by decide) (by decide)
        (by decide)⟩,
    ⟨by decide, by decide,
      c8_keypair_decode_order.2.2 (fun _ _ => List.replicate 64 0) (fun _ => false)
        (("x").toList) (List.replicate 64 '1') (List.replicate 64 0) (by decide)
        (by decide) (by decide) (by decide) (by decide)⟩⟩
